import Mathlib

/-!
Verification development for the invoice generator (`invoice_generator.py`).

The program has two relevant functions:
* `calculate_invoice_totals(items, tax_rate)` — sums `quantity * unit_price`
  over the items, multiplies by the tax rate, and adds.
* `create_invoice_pdf(invoice_data, output_filename)` — reads fields out of
  the `invoice_data` dict in a fixed textual order and appends layout blocks
  (headings, paragraphs, spacers, tables) to a `story` list, which is only
  rendered at the very end.

Embedding conventions:
* Finite Python floats are idealised as exact rationals `ℚ`; where the
  non-finite values `inf`/`-inf`/`nan` matter (the totals calculator, whose
  spec speaks about non-finite inputs) we use `PyNum`, rationals extended
  with the three IEEE special values and the IEEE rules for `+` and `*`
  on them (finite overflow is not modelled).
* Python's `f"{v:.2f}"` / `f"{v:.0f}"` format a float by correctly rounding
  its value to the requested number of decimals with round-half-to-even on
  ties; `rhe` below is that rounding on `ℚ`.
* Dict access `d[k]` is `getKey`, which fails (Python `KeyError k`, the
  spec's `MissingFieldError`) exactly when the key is absent; the composer
  is an `Except String` computation whose bind order is the source's
  access order.
* A reportlab `Paragraph(text, styles['hN'])` is `Block.heading text N`,
  `Paragraph(text, styles['Normal'])` is `Block.paragraph text`,
  `Spacer(1, h*inch)` is `Block.spacer h`, and `Table(data, colWidths)` is
  `Block.table data widths` (widths in inches). Table cells can hold
  non-string Python objects (the code puts a date value straight into a
  cell when it is neither a `datetime` nor already a string), so cells are
  `CellV`: either text or a raw object.
-/

namespace Invoice

/-- A Python float value: a finite rational or one of the IEEE specials. -/
inductive PyNum where
  | finite (q : ℚ)
  | inf
  | neginf
  | nan
deriving DecidableEq, Repr

/-- `math.isfinite` on a `PyNum`. -/
def PyNum.isFinite : PyNum → Bool
  | PyNum.finite _ => true
  | _ => false

/-- IEEE multiplication restricted to the values `PyNum` models
(no finite overflow). -/
def PyNum.mul : PyNum → PyNum → PyNum
  | PyNum.nan, _ => PyNum.nan
  | _, PyNum.nan => PyNum.nan
  | PyNum.finite a, PyNum.finite b => PyNum.finite (a * b)
  | PyNum.finite a, PyNum.inf =>
      if 0 < a then PyNum.inf else if a < 0 then PyNum.neginf else PyNum.nan
  | PyNum.finite a, PyNum.neginf =>
      if 0 < a then PyNum.neginf else if a < 0 then PyNum.inf else PyNum.nan
  | PyNum.inf, PyNum.finite b =>
      if 0 < b then PyNum.inf else if b < 0 then PyNum.neginf else PyNum.nan
  | PyNum.neginf, PyNum.finite b =>
      if 0 < b then PyNum.neginf else if b < 0 then PyNum.inf else PyNum.nan
  | PyNum.inf, PyNum.inf => PyNum.inf
  | PyNum.inf, PyNum.neginf => PyNum.neginf
  | PyNum.neginf, PyNum.inf => PyNum.neginf
  | PyNum.neginf, PyNum.neginf => PyNum.inf

/-- IEEE addition restricted to the values `PyNum` models
(no finite overflow). -/
def PyNum.add : PyNum → PyNum → PyNum
  | PyNum.nan, _ => PyNum.nan
  | _, PyNum.nan => PyNum.nan
  | PyNum.finite a, PyNum.finite b => PyNum.finite (a + b)
  | PyNum.finite _, PyNum.inf => PyNum.inf
  | PyNum.inf, PyNum.finite _ => PyNum.inf
  | PyNum.finite _, PyNum.neginf => PyNum.neginf
  | PyNum.neginf, PyNum.finite _ => PyNum.neginf
  | PyNum.inf, PyNum.inf => PyNum.inf
  | PyNum.neginf, PyNum.neginf => PyNum.neginf
  | PyNum.inf, PyNum.neginf => PyNum.nan
  | PyNum.neginf, PyNum.inf => PyNum.nan

/-- A line item as the totals calculator sees it: the numeric fields are
arbitrary Python floats. -/
structure PItem where
  description : String
  quantity : PyNum
  unit_price : PyNum
deriving DecidableEq, Repr

/-- `calculate_invoice_totals(items, tax_rate)` (source lines 129-134):
`subtotal = sum(item['quantity'] * item['unit_price'] for item in items)`
(Python `sum` starts from `0` and folds left in list order),
`tax_amount = subtotal * tax_rate`, `total_amount = subtotal + tax_amount`.
The source performs no validation and raises nothing, so the embedding is a
total function. -/
def calculate_invoice_totals (items : List PItem) (tax_rate : PyNum) :
    PyNum × PyNum × PyNum :=
  let subtotal := items.foldl
    (fun acc it => PyNum.add acc (PyNum.mul it.quantity it.unit_price))
    (PyNum.finite 0)
  let tax_amount := PyNum.mul subtotal tax_rate
  let total_amount := PyNum.add subtotal tax_amount
  (subtotal, tax_amount, total_amount)

/-! ### Display formatting (the source's f-strings) -/

/-- Round a rational to the nearest integer, ties to even — the rounding
Python's fixed-point float formatting (`:.2f`, `:.0f`) applies to the
(here exactly represented) value. -/
def rhe (x : ℚ) : ℤ :=
  if x - (Int.floor x : ℚ) < 1/2 then Int.floor x
  else if 1/2 < x - (Int.floor x : ℚ) then Int.floor x + 1
  else if Int.floor x % 2 = 0 then Int.floor x else Int.floor x + 1

/-- Left-pad to two digits, as `%.2f`'s fractional part and `%m`/`%d` do. -/
def pad2 (n : ℕ) : String :=
  if n < 10 then "0" ++ toString n else toString n

/-- Left-pad a year to four digits, as `strftime`'s `%Y` does. -/
def pad4 (n : ℕ) : String :=
  if n < 10 then "000" ++ toString n
  else if n < 100 then "00" ++ toString n
  else if n < 1000 then "0" ++ toString n
  else toString n

/-- Render a non-negative number of cents as `d.dd`. -/
def centsString (a : ℕ) : String :=
  toString (a / 100) ++ "." ++ pad2 (a % 100)

/-- `f"${v:.2f}"` (source lines 79-80 and 103-105): dollar sign, then the
value correctly rounded to two decimals, ties to even. -/
def fmtCurrency (v : ℚ) : String :=
  "$" ++ (if v < 0 then "-" else "") ++ centsString (rhe (v * 100)).natAbs

/-- `f"{x:.0f}"` (source line 104, applied to `tax_rate*100`): the value
correctly rounded to an integer, ties to even; a negative value rounding
to zero prints as `-0`. -/
def fmt0 (x : ℚ) : String :=
  if x < 0 ∧ rhe x = 0 then "-0" else toString (rhe x)

/-- Fractional decimal digits of `num/den` (no trailing zeros), with fuel;
terminates exactly for the decimal-valued rationals floats give rise to. -/
def fracDigits : ℕ → ℕ → ℕ → String
  | 0, _, _ => ""
  | fuel + 1, num, den =>
      if num = 0 then ""
      else toString (num * 10 / den) ++ fracDigits fuel (num * 10 % den) den

/-- Python `str` on a float (source line 78, `str(item['quantity'])`) for a
float idealised as the exact rational `q`: sign, integer part, dot, and the
fractional digits (`.0` when there are none, as in `str(2.0) = "2.0"`). -/
def str_py (q : ℚ) : String :=
  let a := q.num.natAbs
  let d := q.den
  (if q < 0 then "-" else "") ++ toString (a / d) ++ "." ++
    (if a % d = 0 then "0" else fracDigits 64 (a % d) d)

/-! ### Dates and table cells -/

/-- A `datetime` value as far as `strftime('%Y-%m-%d')` observes it. -/
structure PyDateTime where
  year : ℕ
  month : ℕ
  day : ℕ
deriving DecidableEq, Repr

/-- `d.strftime('%Y-%m-%d')` (source lines 53-54). -/
def strftimeYmd (d : PyDateTime) : String :=
  pad4 d.year ++ "-" ++ pad2 d.month ++ "-" ++ pad2 d.day

/-- What a date field of the input dict can hold: a `datetime`, a string,
or any other Python object (modelled by an integer exemplar). -/
inductive DateValue where
  | dt (d : PyDateTime)
  | str (s : String)
  | other (o : ℤ)
deriving DecidableEq, Repr

/-- A table cell: a string, or a raw non-string Python object (reportlab
cells accept arbitrary values). -/
inductive CellV where
  | text (s : String)
  | pyObj (o : ℤ)
deriving DecidableEq, Repr

/-- The date expression of source lines 53-54:
`x.strftime('%Y-%m-%d') if isinstance(x, datetime) else x`.
A `datetime` is formatted; anything else — string or not — is passed
through unchanged. No error path exists. -/
def normalize_date_cell : DateValue → CellV
  | DateValue.dt d => CellV.text (strftimeYmd d)
  | DateValue.str s => CellV.text s
  | DateValue.other o => CellV.pyObj o

/-! ### The composer's data model -/

/-- A line item as the composer sees it (finite floats idealised as `ℚ`). -/
structure Item where
  description : String
  quantity : ℚ
  unit_price : ℚ
deriving DecidableEq, Repr

/-- A layout block of the story list: reportlab `Paragraph` with style
`hN` (heading), `Paragraph` with style `Normal`, `Spacer(1, h*inch)`
(height in inches), or `Table(rows, colWidths)` (widths in inches). -/
inductive Block where
  | heading (text : String) (level : ℕ)
  | paragraph (text : String)
  | spacer (height : ℚ)
  | table (rows : List (List CellV)) (colWidths : List ℚ)
deriving DecidableEq, Repr

/-- The `invoice_data` dict: each expected key either present or absent. -/
structure InvoiceData where
  invoice_number : Option String
  invoice_date : Option DateValue
  due_date : Option DateValue
  bill_to_name : Option String
  bill_to_address : Option (List String)
  items : Option (List Item)
  subtotal : Option ℚ
  tax_rate : Option ℚ
  tax_amount : Option ℚ
  total_amount : Option ℚ
  company_name : Option String
  company_address : Option (List String)
  company_phone : Option String
  company_email : Option String
  payment_terms : Option String
deriving DecidableEq, Repr

/-- Dict access `invoice_data[k]`: the value when the key is present,
otherwise Python's `KeyError k` (the spec's `MissingFieldError`). -/
def getKey {α : Type} (o : Option α) (k : String) : Except String α :=
  match o with
  | some v => Except.ok v
  | none => Except.error k

/-- `Except.ok` test, for stating that a composition succeeded. -/
def isOkE {ε α : Type} : Except ε α → Bool
  | Except.ok _ => true
  | Except.error _ => false

/-! ### The composer's tables -/

/-- `invoice_details_data` (source lines 51-55). -/
def details_table_data (invoice_number : String)
    (invoice_date due_date : DateValue) : List (List CellV) :=
  [[CellV.text "Invoice #:", CellV.text invoice_number],
   [CellV.text "Invoice Date:", normalize_date_cell invoice_date],
   [CellV.text "Due Date:", normalize_date_cell due_date]]

/-- One appended row of the items loop (source lines 74-81):
`amount = quantity * unit_price`, then
`[description, str(quantity), f"${unit_price:.2f}", f"${amount:.2f}"]`. -/
def item_row (it : Item) : List CellV :=
  let amount := it.quantity * it.unit_price
  [CellV.text it.description, CellV.text (str_py it.quantity),
   CellV.text (fmtCurrency it.unit_price), CellV.text (fmtCurrency amount)]

/-- The items-table header row (source line 73). -/
def items_header : List CellV :=
  [CellV.text "Description", CellV.text "Quantity",
   CellV.text "Unit Price", CellV.text "Amount"]

/-- `table_data` (source lines 73-81): starts as `[header]`, then the loop
appends one row per item, in list order. -/
def items_table_data (its : List Item) : List (List CellV) :=
  its.foldl (fun td it => td ++ [item_row it]) [items_header]

/-- `totals_data` (source lines 102-106). -/
def totals_table_data (subtotal tax_rate tax_amount total_amount : ℚ) :
    List (List CellV) :=
  [[CellV.text "Subtotal:", CellV.text (fmtCurrency subtotal)],
   [CellV.text ("Tax (" ++ fmt0 (tax_rate * 100) ++ "%):"),
    CellV.text (fmtCurrency tax_amount)],
   [CellV.text "TOTAL DUE:", CellV.text (fmtCurrency total_amount)]]

/-- `create_invoice_pdf` (source lines 10-126), up to the out-of-scope
renderer `doc.build(story)`: the `story` block list it hands the renderer,
or the first `KeyError` raised. The dict accesses are hoisted to the top
in the source's own access order (lines 39, 40, 42, 43, 52, 53, 54, 67,
68, 74, 103, 104 label then value, 105, 120), which preserves both the
first-error behaviour and the successful output, since the partially built
local `story` of a failing run is never rendered. -/
def create_invoice_pdf (d : InvoiceData) : Except String (List Block) := do
  let company_name ← getKey d.company_name "company_name"
  let company_address ← getKey d.company_address "company_address"
  let company_phone ← getKey d.company_phone "company_phone"
  let company_email ← getKey d.company_email "company_email"
  let invoice_number ← getKey d.invoice_number "invoice_number"
  let invoice_date ← getKey d.invoice_date "invoice_date"
  let due_date ← getKey d.due_date "due_date"
  let bill_to_name ← getKey d.bill_to_name "bill_to_name"
  let bill_to_address ← getKey d.bill_to_address "bill_to_address"
  let items ← getKey d.items "items"
  let subtotal ← getKey d.subtotal "subtotal"
  let tax_rate ← getKey d.tax_rate "tax_rate"
  let tax_amount ← getKey d.tax_amount "tax_amount"
  let total_amount ← getKey d.total_amount "total_amount"
  let payment_terms ← getKey d.payment_terms "payment_terms"
  pure (
    [Block.heading company_name 1]
    ++ company_address.map Block.paragraph
    ++ [Block.paragraph ("Phone: " ++ company_phone),
        Block.paragraph ("Email: " ++ company_email),
        Block.spacer (1/5),
        Block.heading "INVOICE" 2,
        Block.spacer (1/10),
        Block.table (details_table_data invoice_number invoice_date due_date)
          [2, 3],
        Block.spacer (1/5),
        Block.heading "BILL TO:" 3,
        Block.paragraph bill_to_name]
    ++ bill_to_address.map Block.paragraph
    ++ [Block.spacer (1/5),
        Block.table (items_table_data items) [3, 1, 3/2, 3/2],
        Block.spacer (1/5),
        Block.table
          (totals_table_data subtotal tax_rate tax_amount total_amount)
          [11/2, 2],
        Block.spacer (1/5),
        Block.heading "Payment Terms:" 3,
        Block.paragraph payment_terms,
        Block.spacer (1/2),
        Block.heading "Thank you for your business!" 3])

/-- The first absent required key in the composer's fixed access order
(the order of the dict accesses in `create_invoice_pdf`), if any. -/
def firstMissing (d : InvoiceData) : Option String :=
  if d.company_name.isNone then some "company_name"
  else if d.company_address.isNone then some "company_address"
  else if d.company_phone.isNone then some "company_phone"
  else if d.company_email.isNone then some "company_email"
  else if d.invoice_number.isNone then some "invoice_number"
  else if d.invoice_date.isNone then some "invoice_date"
  else if d.due_date.isNone then some "due_date"
  else if d.bill_to_name.isNone then some "bill_to_name"
  else if d.bill_to_address.isNone then some "bill_to_address"
  else if d.items.isNone then some "items"
  else if d.subtotal.isNone then some "subtotal"
  else if d.tax_rate.isNone then some "tax_rate"
  else if d.tax_amount.isNone then some "tax_amount"
  else if d.total_amount.isNone then some "total_amount"
  else if d.payment_terms.isNone then some "payment_terms"
  else none

/-- A complete `invoice_data` dict (every expected key present). -/
def mkData (invoice_number : String) (invoice_date due_date : DateValue)
    (bill_to_name : String) (bill_to_address : List String)
    (items : List Item) (subtotal tax_rate tax_amount total_amount : ℚ)
    (company_name : String) (company_address : List String)
    (company_phone company_email payment_terms : String) : InvoiceData :=
  ⟨some invoice_number, some invoice_date, some due_date, some bill_to_name,
   some bill_to_address, some items, some subtotal, some tax_rate,
   some tax_amount, some total_amount, some company_name,
   some company_address, some company_phone, some company_email,
   some payment_terms⟩

/-- The story produced for a complete dict (for stating structural facts
about successful compositions). -/
def composed (invoice_number : String) (invoice_date due_date : DateValue)
    (bill_to_name : String) (bill_to_address : List String)
    (items : List Item) (subtotal tax_rate tax_amount total_amount : ℚ)
    (company_name : String) (company_address : List String)
    (company_phone company_email payment_terms : String) : List Block :=
  [Block.heading company_name 1]
  ++ company_address.map Block.paragraph
  ++ [Block.paragraph ("Phone: " ++ company_phone),
      Block.paragraph ("Email: " ++ company_email),
      Block.spacer (1/5),
      Block.heading "INVOICE" 2,
      Block.spacer (1/10),
      Block.table (details_table_data invoice_number invoice_date due_date)
        [2, 3],
      Block.spacer (1/5),
      Block.heading "BILL TO:" 3,
      Block.paragraph bill_to_name]
  ++ bill_to_address.map Block.paragraph
  ++ [Block.spacer (1/5),
      Block.table (items_table_data items) [3, 1, 3/2, 3/2],
      Block.spacer (1/5),
      Block.table
        (totals_table_data subtotal tax_rate tax_amount total_amount)
        [11/2, 2],
      Block.spacer (1/5),
      Block.heading "Payment Terms:" 3,
      Block.paragraph payment_terms,
      Block.spacer (1/2),
      Block.heading "Thank you for your business!" 3]

/-- On a complete dict the composer succeeds with the `composed` story. -/
lemma create_invoice_pdf_complete (inv : String) (idate ddate : DateValue)
    (btn : String) (bta : List String) (its : List Item)
    (sub rate tax tot : ℚ) (cn : String) (ca : List String)
    (cp ce terms : String) :
    create_invoice_pdf
        (mkData inv idate ddate btn bta its sub rate tax tot cn ca cp ce
          terms)
      = Except.ok
          (composed inv idate ddate btn bta its sub rate tax tot cn ca cp ce
            terms) := rfl

/-- A concrete complete record, parameterised by its invoice date. -/
def sampleData (idate : DateValue) : InvoiceData :=
  mkData "INV-001" idate (DateValue.str "2024-04-14") "Acme Corp"
    ["1 Main St", "Springfield"]
    [⟨"Widget", 2, 999/100⟩, ⟨"Service", 1, 50⟩]
    (6998/100) (8/100) (55984/10000) (755784/10000)
    "My Co" ["5 High St"] "555-0100" "a@b.c" "Net 30"

/-! ### Lemmas about `PyNum` arithmetic and the totals fold -/

lemma PyNum.mul_nan_left (x : PyNum) : PyNum.mul PyNum.nan x = PyNum.nan := by
  cases x <;> rfl

lemma PyNum.mul_nan_right (x : PyNum) : PyNum.mul x PyNum.nan = PyNum.nan := by
  cases x <;> rfl

lemma PyNum.add_nan_left (x : PyNum) : PyNum.add PyNum.nan x = PyNum.nan := by
  cases x <;> rfl

lemma PyNum.add_nan_right (x : PyNum) : PyNum.add x PyNum.nan = PyNum.nan := by
  cases x <;> rfl

/-- The totals accumulator of `calculate_invoice_totals`. -/
def totalsStep (acc : PyNum) (it : PItem) : PyNum :=
  PyNum.add acc (PyNum.mul it.quantity it.unit_price)

lemma calculate_invoice_totals_eq (items : List PItem) (r : PyNum) :
    calculate_invoice_totals items r =
      (items.foldl totalsStep (PyNum.finite 0),
       PyNum.mul (items.foldl totalsStep (PyNum.finite 0)) r,
       PyNum.add (items.foldl totalsStep (PyNum.finite 0))
         (PyNum.mul (items.foldl totalsStep (PyNum.finite 0)) r)) := rfl

lemma foldl_totalsStep_nan (l : List PItem) :
    l.foldl totalsStep PyNum.nan = PyNum.nan := by
  induction l with
  | nil => rfl
  | cons hd tl ih =>
      simpa [totalsStep, PyNum.add_nan_left] using ih

lemma foldl_totalsStep_has_nan (l : List PItem) (acc : PyNum)
    (h : ∃ it ∈ l, it.quantity = PyNum.nan ∨ it.unit_price = PyNum.nan) :
    l.foldl totalsStep acc = PyNum.nan := by
  induction l generalizing acc with
  | nil => simp at h
  | cons hd tl ih =>
      rcases h with ⟨it, hmem, hbad⟩
      rcases List.mem_cons.mp hmem with heq | htl
      · subst heq
        have hstep : totalsStep acc it = PyNum.nan := by
          rcases hbad with hq | hp
          · simp [totalsStep, hq, PyNum.mul_nan_left, PyNum.add_nan_right]
          · simp [totalsStep, hp, PyNum.mul_nan_right, PyNum.add_nan_right]
        simp only [List.foldl_cons, hstep]
        exact foldl_totalsStep_nan tl
      · exact ih _ ⟨it, htl, hbad⟩

lemma foldl_totalsStep_finite (l : List (String × ℚ × ℚ)) (a : ℚ) :
    (l.map (fun t => (⟨t.1, PyNum.finite t.2.1, PyNum.finite t.2.2⟩ :
        PItem))).foldl totalsStep (PyNum.finite a)
      = PyNum.finite (a + (l.map (fun t => t.2.1 * t.2.2)).sum) := by
  induction l generalizing a with
  | nil => simp
  | cons hd tl ih =>
      simp only [List.map_cons, List.foldl_cons, totalsStep, PyNum.mul,
        PyNum.add, List.sum_cons, ih]
      rw [add_assoc]

/-! ### Claims about the Totals Calculator -/

/-- C1: for finite inputs (floats idealised as exact rationals) the
calculator returns `subtotal = Σ quantityᵢ × unitPriceᵢ` (summed left to
right in list order, which for exact arithmetic equals `List.sum`),
`taxAmount = subtotal × r`, and `totalAmount = subtotal + taxAmount`
exactly; the empty list gives `(0, 0, 0)`. -/
theorem calc_totals_exact (its : List (String × ℚ × ℚ)) (r : ℚ) :
    calculate_invoice_totals
        (its.map (fun t => (⟨t.1, PyNum.finite t.2.1,
          PyNum.finite t.2.2⟩ : PItem))) (PyNum.finite r)
      = (PyNum.finite ((its.map (fun t => t.2.1 * t.2.2)).sum),
         PyNum.finite ((its.map (fun t => t.2.1 * t.2.2)).sum * r),
         PyNum.finite ((its.map (fun t => t.2.1 * t.2.2)).sum
           + (its.map (fun t => t.2.1 * t.2.2)).sum * r))
    ∧ calculate_invoice_totals [] (PyNum.finite r)
      = (PyNum.finite 0, PyNum.finite 0, PyNum.finite 0) := by
  constructor
  · rw [calculate_invoice_totals_eq, foldl_totalsStep_finite]
    simp [PyNum.mul, PyNum.add]
  · simp [calculate_invoice_totals, PyNum.mul, PyNum.add]

/-- C4 counterexample: `calculate_invoice_totals` performs no finiteness
validation and raises nothing — its embedding is a total function. On an
item with a non-finite (`nan`) quantity it returns normally (with `nan`
totals) instead of failing with `InvalidInputError` as the claim states. -/
theorem calc_totals_no_validation :
    PyNum.isFinite PyNum.nan = false
    ∧ calculate_invoice_totals
        [⟨"Widget", PyNum.nan, PyNum.finite 1⟩] (PyNum.finite 0)
      = (PyNum.nan, PyNum.nan, PyNum.nan) := ⟨rfl, rfl⟩

/-- C4 amended: the calculator never fails; it returns totals for every
input, and a `nan` quantity or unit price in any item propagates, making
all three returned totals `nan`. -/
theorem calc_totals_nan_propagates (items : List PItem) (r : PyNum)
    (h : ∃ it ∈ items,
      it.quantity = PyNum.nan ∨ it.unit_price = PyNum.nan) :
    calculate_invoice_totals items r = (PyNum.nan, PyNum.nan, PyNum.nan) := by
  rw [calculate_invoice_totals_eq, foldl_totalsStep_has_nan items _ h]
  simp [PyNum.mul_nan_left, PyNum.add_nan_left]

/-- Witness for `calc_totals_nan_propagates` at a concrete input. -/
theorem calc_totals_nan_propagates_witness :
    (∃ it ∈ [(⟨"Widget", PyNum.nan, PyNum.finite 1⟩ : PItem)],
      it.quantity = PyNum.nan ∨ it.unit_price = PyNum.nan)
    ∧ calculate_invoice_totals
        [⟨"Widget", PyNum.nan, PyNum.finite 1⟩] (PyNum.finite 2)
      = (PyNum.nan, PyNum.nan, PyNum.nan) :=
  ⟨⟨⟨"Widget", PyNum.nan, PyNum.finite 1⟩, by simp, Or.inl rfl⟩,
   calc_totals_nan_propagates _ _
     ⟨⟨"Widget", PyNum.nan, PyNum.finite 1⟩, by simp, Or.inl rfl⟩⟩

/-! ### Lemmas about the rounding used by the formatters -/

lemma rhe_nearest (x : ℚ) : |((rhe x : ℤ) : ℚ) - x| ≤ 1/2 := by
  have hfl : ((Int.floor x : ℤ) : ℚ) ≤ x := Int.floor_le x
  have hlt : x < ((Int.floor x : ℤ) : ℚ) + 1 := Int.lt_floor_add_one x
  unfold rhe
  split_ifs with h1 h2 h3
  · rw [abs_sub_comm, abs_of_nonneg (by linarith)]
    linarith
  · rw [abs_of_nonneg (by push_cast; linarith)]
    push_cast
    linarith
  · rw [abs_sub_comm, abs_of_nonneg (by linarith)]
    linarith
  · rw [abs_of_nonneg (by push_cast; linarith)]
    push_cast
    linarith

lemma rhe_tie_even (x : ℚ) (h : |((rhe x : ℤ) : ℚ) - x| = 1/2) :
    rhe x % 2 = 0 := by
  have hfl : ((Int.floor x : ℤ) : ℚ) ≤ x := Int.floor_le x
  have hlt : x < ((Int.floor x : ℤ) : ℚ) + 1 := Int.lt_floor_add_one x
  unfold rhe at h ⊢
  split_ifs at h ⊢ with h1 h2 h3
  · rw [abs_sub_comm, abs_of_nonneg (by linarith)] at h
    linarith
  · rw [abs_of_nonneg (by push_cast; linarith)] at h
    push_cast at h
    linarith
  · exact h3
  · have := Int.emod_two_eq (Int.floor x)
    omega

lemma rhe_nonneg (x : ℚ) (h : 0 ≤ x) : 0 ≤ rhe x := by
  have hf : 0 ≤ Int.floor x := Int.floor_nonneg.mpr h
  unfold rhe
  split_ifs <;> omega

/-! ### Claims about currency formatting -/

/-- Modelled from the spec: the claimed currency formatter — `$` followed
by the value rounded to two decimals with half-up rounding (ties away
from zero). Used only to compare against the source's formatter. -/
def rhu (x : ℚ) : ℤ :=
  if 0 ≤ x then Int.floor (x + 1/2) else -Int.floor (-x + 1/2)

/-- Modelled from the spec: currency formatting with half-up rounding. -/
def fmtCurrency_halfUp (v : ℚ) : String :=
  "$" ++ (if v < 0 then "-" else "") ++ centsString (rhu (v * 100)).natAbs

/-- C2 counterexample: the source formats with `f"${v:.2f}"`, which rounds
ties to even, not half-up. At `v = 0.125` (exactly representable in binary,
so the Python code genuinely prints this) the code shows `$0.12` while the
claimed half-up rule gives `$0.13`; at the exact value `10.005` the code
shows `$10.00`, not the claimed `$10.01`. -/
theorem fmtCurrency_not_half_up :
    fmtCurrency (1/8) = "$0.12" ∧ fmtCurrency_halfUp (1/8) = "$0.13"
    ∧ fmtCurrency (10005/1000) = "$10.00"
    ∧ fmtCurrency_halfUp (10005/1000) = "$10.01" := by
  have h1 : rhe ((1 : ℚ)/8 * 100) = 12 := by norm_num [rhe, Rat.floor_def]
  have h2 : rhu ((1 : ℚ)/8 * 100) = 13 := by norm_num [rhu, Rat.floor_def]
  have h3 : rhe ((10005 : ℚ)/1000 * 100) = 1000 := by
    norm_num [rhe, Rat.floor_def]
  have h4 : rhu ((10005 : ℚ)/1000 * 100) = 1001 := by
    norm_num [rhu, Rat.floor_def]
  refine ⟨?_, ?_, ?_, ?_⟩
  · rw [fmtCurrency, if_neg (by norm_num), h1]; rfl
  · rw [fmtCurrency_halfUp, if_neg (by norm_num), h2]; rfl
  · rw [fmtCurrency, if_neg (by norm_num), h3]; rfl
  · rw [fmtCurrency_halfUp, if_neg (by norm_num), h4]; rfl

/-- C2 amended: every non-negative value displayed as currency is `$`
followed by the value rounded to two decimals to the *nearest* cent with
ties to even (the rounding Python's `:.2f` performs): the printed cent
count `n` is within half a cent of `v × 100`, and an exact tie rounds to
an even cent count; in particular the exact value `10.005` formats as
`$10.00`. -/
theorem fmtCurrency_rounds_half_even (v : ℚ) (h : 0 ≤ v) :
    (∃ n : ℕ, fmtCurrency v = "$" ++ centsString n
      ∧ |(n : ℚ) - v * 100| ≤ 1/2
      ∧ (|(n : ℚ) - v * 100| = 1/2 → n % 2 = 0))
    ∧ fmtCurrency (10005/1000) = "$10.00" := by
  have hn : 0 ≤ rhe (v * 100) := rhe_nonneg _ (by positivity)
  have hcast : (((rhe (v * 100)).natAbs : ℕ) : ℚ)
      = ((rhe (v * 100) : ℤ) : ℚ) := by
    exact (Int.cast_natCast _).symm.trans
      (congrArg (fun z : ℤ => (z : ℚ)) (Int.natAbs_of_nonneg hn))
  have h3 : rhe ((10005 : ℚ)/1000 * 100) = 1000 := by
    norm_num [rhe, Rat.floor_def]
  refine ⟨⟨(rhe (v * 100)).natAbs, ?_, ?_, ?_⟩,
    by rw [fmtCurrency, if_neg (by norm_num), h3]; rfl⟩
  · have hv : ¬ v < 0 := not_lt.mpr h
    simp [fmtCurrency, hv]
  · rw [hcast]
    exact rhe_nearest (v * 100)
  · intro htie
    rw [hcast] at htie
    have he := rhe_tie_even (v * 100) htie
    have habs : ((rhe (v * 100)).natAbs : ℤ) = rhe (v * 100) :=
      Int.natAbs_of_nonneg hn
    omega

/-- Witness for `fmtCurrency_rounds_half_even` at `v = 10.005`. -/
theorem fmtCurrency_rounds_half_even_witness :
    (0 : ℚ) ≤ 10005/1000
    ∧ ((∃ n : ℕ, fmtCurrency (10005/1000) = "$" ++ centsString n
        ∧ |(n : ℚ) - (10005/1000) * 100| ≤ 1/2
        ∧ (|(n : ℚ) - (10005/1000) * 100| = 1/2 → n % 2 = 0))
      ∧ fmtCurrency (10005/1000) = "$10.00") :=
  ⟨by norm_num, fmtCurrency_rounds_half_even (10005/1000) (by norm_num)⟩

/-! ### Claims about date handling -/

/-- C3: in the metadata table a structured date is displayed as its
`YYYY-MM-DD` rendering and a string date is displayed unchanged, so the
structured date 2024-03-15 and the string "2024-03-15" produce identical
displayed text. -/
theorem date_normalization (d : PyDateTime) (s : String) (inv : String) :
    normalize_date_cell (DateValue.dt d) = CellV.text (strftimeYmd d)
    ∧ normalize_date_cell (DateValue.str s) = CellV.text s
    ∧ details_table_data inv (DateValue.dt d) (DateValue.str s)
      = [[CellV.text "Invoice #:", CellV.text inv],
         [CellV.text "Invoice Date:", CellV.text (strftimeYmd d)],
         [CellV.text "Due Date:", CellV.text s]]
    ∧ normalize_date_cell (DateValue.dt ⟨2024, 3, 15⟩)
      = normalize_date_cell (DateValue.str "2024-03-15") :=
  ⟨rfl, rfl, rfl, rfl⟩

/-- C5 counterexample: a date value that is neither a structured date nor
a string (here the integer object 42) does not make the composer fail —
composition succeeds, contradicting the claimed `InvalidDateError`. -/
theorem compose_accepts_other_date :
    isOkE (create_invoice_pdf (sampleData (DateValue.other 42))) = true := rfl

/-- C5 amended: the date expression only formats `datetime` values; any
other value — string or not — is passed through unchanged into the
metadata-table cell, and composition succeeds with no error. -/
theorem non_date_passthrough (o : ℤ) :
    normalize_date_cell (DateValue.other o) = CellV.pyObj o
    ∧ isOkE (create_invoice_pdf (sampleData (DateValue.other o))) = true :=
  ⟨rfl, rfl⟩

/-! ### Missing required fields -/

/-- C6: if any required field is absent, the composer fails with the error
naming the first absent field in its fixed access order (Python's
`KeyError`, the spec's `MissingFieldError`), and returns no block
sequence (the `Except.error` result carries no partial story). -/
theorem compose_missing_field (d : InvoiceData) (k : String)
    (h : firstMissing d = some k) :
    create_invoice_pdf d = Except.error k := by
  rcases h1 : d.company_name with _ | v1
  · simp [firstMissing, h1] at h
    subst h
    simp [create_invoice_pdf, getKey, h1, Bind.bind, Except.bind]
  rcases h2 : d.company_address with _ | v2
  · simp [firstMissing, h1, h2] at h
    subst h
    simp [create_invoice_pdf, getKey, h1, h2, Bind.bind, Except.bind]
  rcases h3 : d.company_phone with _ | v3
  · simp [firstMissing, h1, h2, h3] at h
    subst h
    simp [create_invoice_pdf, getKey, h1, h2, h3, Bind.bind, Except.bind]
  rcases h4 : d.company_email with _ | v4
  · simp [firstMissing, h1, h2, h3, h4] at h
    subst h
    simp [create_invoice_pdf, getKey, h1, h2, h3, h4, Bind.bind, Except.bind]
  rcases h5 : d.invoice_number with _ | v5
  · simp [firstMissing, h1, h2, h3, h4, h5] at h
    subst h
    simp [create_invoice_pdf, getKey, h1, h2, h3, h4, h5, Bind.bind,
      Except.bind]
  rcases h6 : d.invoice_date with _ | v6
  · simp [firstMissing, h1, h2, h3, h4, h5, h6] at h
    subst h
    simp [create_invoice_pdf, getKey, h1, h2, h3, h4, h5, h6, Bind.bind,
      Except.bind]
  rcases h7 : d.due_date with _ | v7
  · simp [firstMissing, h1, h2, h3, h4, h5, h6, h7] at h
    subst h
    simp [create_invoice_pdf, getKey, h1, h2, h3, h4, h5, h6, h7, Bind.bind,
      Except.bind]
  rcases h8 : d.bill_to_name with _ | v8
  · simp [firstMissing, h1, h2, h3, h4, h5, h6, h7, h8] at h
    subst h
    simp [create_invoice_pdf, getKey, h1, h2, h3, h4, h5, h6, h7, h8,
      Bind.bind, Except.bind]
  rcases h9 : d.bill_to_address with _ | v9
  · simp [firstMissing, h1, h2, h3, h4, h5, h6, h7, h8, h9] at h
    subst h
    simp [create_invoice_pdf, getKey, h1, h2, h3, h4, h5, h6, h7, h8, h9,
      Bind.bind, Except.bind]
  rcases h10 : d.items with _ | v10
  · simp [firstMissing, h1, h2, h3, h4, h5, h6, h7, h8, h9, h10] at h
    subst h
    simp [create_invoice_pdf, getKey, h1, h2, h3, h4, h5, h6, h7, h8, h9,
      h10, Bind.bind, Except.bind]
  rcases h11 : d.subtotal with _ | v11
  · simp [firstMissing, h1, h2, h3, h4, h5, h6, h7, h8, h9, h10, h11] at h
    subst h
    simp [create_invoice_pdf, getKey, h1, h2, h3, h4, h5, h6, h7, h8, h9,
      h10, h11, Bind.bind, Except.bind]
  rcases h12 : d.tax_rate with _ | v12
  · simp [firstMissing, h1, h2, h3, h4, h5, h6, h7, h8, h9, h10, h11,
      h12] at h
    subst h
    simp [create_invoice_pdf, getKey, h1, h2, h3, h4, h5, h6, h7, h8, h9,
      h10, h11, h12, Bind.bind, Except.bind]
  rcases h13 : d.tax_amount with _ | v13
  · simp [firstMissing, h1, h2, h3, h4, h5, h6, h7, h8, h9, h10, h11, h12,
      h13] at h
    subst h
    simp [create_invoice_pdf, getKey, h1, h2, h3, h4, h5, h6, h7, h8, h9,
      h10, h11, h12, h13, Bind.bind, Except.bind]
  rcases h14 : d.total_amount with _ | v14
  · simp [firstMissing, h1, h2, h3, h4, h5, h6, h7, h8, h9, h10, h11, h12,
      h13, h14] at h
    subst h
    simp [create_invoice_pdf, getKey, h1, h2, h3, h4, h5, h6, h7, h8, h9,
      h10, h11, h12, h13, h14, Bind.bind, Except.bind]
  rcases h15 : d.payment_terms with _ | v15
  · simp [firstMissing, h1, h2, h3, h4, h5, h6, h7, h8, h9, h10, h11, h12,
      h13, h14, h15] at h
    subst h
    simp [create_invoice_pdf, getKey, h1, h2, h3, h4, h5, h6, h7, h8, h9,
      h10, h11, h12, h13, h14, h15, Bind.bind, Except.bind]
  simp [firstMissing, h1, h2, h3, h4, h5, h6, h7, h8, h9, h10, h11, h12,
    h13, h14, h15] at h

/-- Witness for `compose_missing_field`: a record missing only
`company_name` fails with exactly that key. -/
theorem compose_missing_field_witness :
    firstMissing { sampleData (DateValue.str "2024-03-15") with
        company_name := none } = some "company_name"
    ∧ create_invoice_pdf { sampleData (DateValue.str "2024-03-15") with
        company_name := none } = Except.error "company_name" :=
  ⟨rfl, compose_missing_field _ _ rfl⟩

/-! ### Claims about the item and totals tables -/

lemma foldl_append_item_rows (its : List Item)
    (init : List (List CellV)) :
    its.foldl (fun td it => td ++ [item_row it]) init
      = init ++ its.map item_row := by
  induction its generalizing init with
  | nil => simp
  | cons hd tl ih => simp [ih]

/-- C7: the line-item table is the header row
`[Description, Quantity, Unit Price, Amount]` followed by exactly one row
per item, in item-list order; each row holds the description, `str` of the
quantity, and the currency-formatted unit price and derived amount
`quantity × unitPrice`; the empty item list gives the header row alone. -/
theorem items_table_spec (its : List Item) (it : Item) :
    items_table_data its = items_header :: its.map item_row
    ∧ (items_table_data its).length = its.length + 1
    ∧ items_table_data [] = [items_header]
    ∧ items_header = [CellV.text "Description", CellV.text "Quantity",
        CellV.text "Unit Price", CellV.text "Amount"]
    ∧ item_row it = [CellV.text it.description,
        CellV.text (str_py it.quantity),
        CellV.text (fmtCurrency it.unit_price),
        CellV.text (fmtCurrency (it.quantity * it.unit_price))] := by
  have hmain : items_table_data its = items_header :: its.map item_row := by
    rw [items_table_data, foldl_append_item_rows]
    rfl
  refine ⟨hmain, ?_, rfl, rfl, rfl⟩
  rw [hmain]
  simp

/-- C8: the totals table is a 2-column, 3-row table whose rows pair the
labels `Subtotal:`, `Tax (<rate×100 rounded to an integer>%):` and
`TOTAL DUE:` with the currency-formatted subtotal, tax amount and total
amount; the integer in the tax label is the rounding `rhe` of
`taxRate × 100`, which is within 1/2 of the exact value. -/
theorem totals_table_spec (subtotal tax_rate tax_amount total_amount : ℚ) :
    (totals_table_data subtotal tax_rate tax_amount total_amount).length = 3
    ∧ (∀ row ∈ totals_table_data subtotal tax_rate tax_amount total_amount,
        row.length = 2)
    ∧ totals_table_data subtotal tax_rate tax_amount total_amount
      = [[CellV.text "Subtotal:", CellV.text (fmtCurrency subtotal)],
         [CellV.text ("Tax (" ++ fmt0 (tax_rate * 100) ++ "%):"),
          CellV.text (fmtCurrency tax_amount)],
         [CellV.text "TOTAL DUE:", CellV.text (fmtCurrency total_amount)]]
    ∧ (∀ x : ℚ, |((rhe x : ℤ) : ℚ) - x| ≤ 1/2) := by
  refine ⟨rfl, ?_, rfl, rhe_nearest⟩
  intro row hrow
  simp only [totals_table_data, List.mem_cons, List.not_mem_nil,
    or_false] at hrow
  rcases hrow with h | h | h <;> subst h <;> rfl

/-! ### Determinism of composition -/

/-- C9: the composer is a pure function of its input record: structurally
equal inputs give structurally equal results, with no dependence on any
state outside the input. -/
theorem compose_deterministic (d1 d2 : InvoiceData) (h : d1 = d2) :
    create_invoice_pdf d1 = create_invoice_pdf d2 := by rw [h]

/-- Witness for `compose_deterministic` at a concrete record. -/
theorem compose_deterministic_witness :
    sampleData (DateValue.str "2024-03-15")
      = sampleData (DateValue.str "2024-03-15")
    ∧ create_invoice_pdf (sampleData (DateValue.str "2024-03-15"))
      = create_invoice_pdf (sampleData (DateValue.str "2024-03-15")) :=
  ⟨rfl, compose_deterministic _ _ rfl⟩

/-! ### Shape of the composed story -/

/-- C10: for a complete record the composed story is non-empty, starts
with the company-name heading, ends with the thank-you heading, and has
exactly `19 + |companyAddress| + |billToAddress|` blocks — independent of
the number of line items (items only add table rows). -/
theorem composed_story_shape (inv : String) (idate ddate : DateValue)
    (btn : String) (bta : List String) (its : List Item)
    (sub rate tax tot : ℚ) (cn : String) (ca : List String)
    (cp ce terms : String) :
    ∃ L : List Block,
      create_invoice_pdf
          (mkData inv idate ddate btn bta its sub rate tax tot cn ca cp ce
            terms)
        = Except.ok L
      ∧ L.length = 19 + ca.length + bta.length
      ∧ L.head? = some (Block.heading cn 1)
      ∧ L.getLast?
        = some (Block.heading "Thank you for your business!" 3) := by
  refine ⟨_, create_invoice_pdf_complete inv idate ddate btn bta its sub
    rate tax tot cn ca cp ce terms, ?_, ?_, ?_⟩
  · simp [composed]
    omega
  · rfl
  · show (composed inv idate ddate btn bta its sub rate tax tot cn ca cp ce
      terms).getLast? = _
    rw [composed]
    rw [List.getLast?_append_cons]
    rfl

end Invoice
